import Mathlib

/-
Verification development for the Finance-Tracker repository.

The budget pacing service exists in several revisions in the repository; the
embedding below follows the current revision of `services/budgetRLService.js`
(the one with the `daysPassed = Math.max(1, currentDay)` clamp, the
`Infinity` pace sentinel, the `remaining <= 0` overspend sub-branch and the
60% positive threshold), the budgets router (`routes/budgets.js`), the
`models/Budget.js` schema, and the `generateAggregateAdvisory` helper from
the earlier service revision (the only revision that contains it).

Modelling conventions:
- JavaScript numbers are embedded as rationals (ℚ); the arithmetic performed
  by the service (a handful of +, -, *, / on small decimals) is exact in ℚ.
- The one place a computation can produce the IEEE value `Infinity`
  (`pacePercentage` when the ideal spend is 0 and money was spent) is
  embedded with the explicit sum type `PaceValue` below.
- Message strings interpolate currency formatting (`Intl.NumberFormat`),
  the wall-clock date and the category name; these presentation details are
  embedded as an inductive `RecMessage` that records which message branch
  was taken together with the numeric figures the branch computes.
- `Date` values are consumed by the service only through
  `getMonth() + 1`, `getFullYear()`, `getDate()` and
  `new Date(y, m, 0).getDate()`; those projections (`currentMonth`,
  `currentYear`, `currentDay`, `daysInMonth`) are passed as explicit
  integer arguments, and a transaction's `date` is embedded as the
  month/year pair the code extracts from it.
-/

namespace FinanceTracker

/-- Advisory severity levels; the string literals of the source
(`'warning'`, `'caution'`, `'positive'`, `'info'`, `'general'`). -/
inductive Severity where
  | warning
  | caution
  | positive
  | info
  | general
deriving DecidableEq, Repr

/-- A JavaScript number that is either finite or the IEEE value `+Infinity`.
Only `pacePercentage` can be infinite in this code base
(`spent > 0 ? Infinity : 0` when `idealSpentByNow` is 0). -/
inductive PaceValue where
  | fin (q : ℚ)
  | posInf
deriving DecidableEq, Repr

/-- The JavaScript comparison `v > c` for a possibly-infinite `v`
(`Infinity > c` is true). -/
def PaceValue.gtQ : PaceValue → ℚ → Bool
  | .fin q, c => decide (c < q)
  | .posInf, _ => true

/-- The JavaScript comparison `v >= c` for a possibly-infinite `v`. -/
def PaceValue.geQ : PaceValue → ℚ → Bool
  | .fin q, c => decide (c ≤ q)
  | .posInf, _ => true

/-- The JavaScript comparison `v <= c` for a possibly-infinite `v`
(`Infinity <= c` is false). -/
def PaceValue.leQ : PaceValue → ℚ → Bool
  | .fin q, c => decide (q ≤ c)
  | .posInf, _ => false

/-- The JavaScript order `v1 <= v2` on possibly-infinite values. -/
def PaceValue.le : PaceValue → PaceValue → Bool
  | .fin a, .fin b => decide (a ≤ b)
  | _, .posInf => true
  | .posInf, .fin _ => false

/-- The record returned by `calculateBudgetPace`. -/
structure PaceMetrics where
  spent : ℚ
  pacePercentage : PaceValue
  dailyRate : ℚ
  projectedSpending : ℚ
  remaining : ℚ
  dailyBudget : ℚ
  idealSpentByNow : ℚ
deriving DecidableEq, Repr

/-- Embedding of `BudgetRLService.calculateBudgetPace(budget, spent,
currentDay, daysInMonth)`.  The source first coerces
`parseFloat(budget.amount) || 0`; on an already-numeric amount this is the
identity (and `0 || 0` is `0`), so the embedding takes the numeric
`budgetAmount` directly.  `daysPassed = Math.max(1, currentDay)` clamps the
day; `remainingDays = daysInMonth - daysPassed`; each guarded division is
reproduced verbatim. -/
def calculateBudgetPace (budgetAmount spent : ℚ) (currentDay daysInMonth : ℤ) :
    PaceMetrics :=
  let daysPassed : ℤ := max 1 currentDay
  let idealSpentByNow : ℚ := budgetAmount / (daysInMonth : ℚ) * (daysPassed : ℚ)
  let pacePercentage : PaceValue :=
    if 0 < idealSpentByNow then .fin (spent / idealSpentByNow * 100)
    else if 0 < spent then .posInf else .fin 0
  let dailyRate : ℚ := spent / (daysPassed : ℚ)
  let projectedSpending : ℚ := dailyRate * (daysInMonth : ℚ)
  let remaining : ℚ := budgetAmount - spent
  let remainingDays : ℤ := daysInMonth - daysPassed
  let dailyBudget : ℚ :=
    if 0 < remainingDays then remaining / (remainingDays : ℚ) else 0
  { spent := spent
    pacePercentage := pacePercentage
    dailyRate := dailyRate
    projectedSpending := projectedSpending
    remaining := remaining
    dailyBudget := dailyBudget
    idealSpentByNow := idealSpentByNow }

/-- Checked variant of `calculateBudgetPace` in which every division of the
source is performed by `divOpt` below and a division by zero aborts the
computation.  Used to state that all divisions of the source are guarded. -/
def divOpt (a b : ℚ) : Option ℚ := if b = 0 then none else some (a / b)

/-- The same computation as `calculateBudgetPace`, but with each division
routed through `divOpt`; it returns `none` exactly when some division of the
source would divide by zero. -/
def calculateBudgetPaceChecked (budgetAmount spent : ℚ)
    (currentDay daysInMonth : ℤ) : Option PaceMetrics := do
  let daysPassed : ℤ := max 1 currentDay
  let perDay ← divOpt budgetAmount (daysInMonth : ℚ)
  let idealSpentByNow : ℚ := perDay * (daysPassed : ℚ)
  let pacePercentage ←
    if 0 < idealSpentByNow then do
      let r ← divOpt spent idealSpentByNow
      pure (PaceValue.fin (r * 100))
    else
      pure (if 0 < spent then PaceValue.posInf else PaceValue.fin 0)
  let dailyRate ← divOpt spent (daysPassed : ℚ)
  let projectedSpending : ℚ := dailyRate * (daysInMonth : ℚ)
  let remaining : ℚ := budgetAmount - spent
  let remainingDays : ℤ := daysInMonth - daysPassed
  let dailyBudget ←
    if 0 < remainingDays then divOpt remaining (remainingDays : ℚ) else pure 0
  pure
    { spent := spent
      pacePercentage := pacePercentage
      dailyRate := dailyRate
      projectedSpending := projectedSpending
      remaining := remaining
      dailyBudget := dailyBudget
      idealSpentByNow := idealSpentByNow }

/-- Which message branch `getPaceRecommendation` took, together with the
numeric figures that branch interpolates into its string (currency
formatting, the category name and wall-clock dates are presentation and are
not modelled).  `daysUntilExceeded = none` models the `Infinity` sentinel of
the caution branch. -/
inductive RecMessage where
  | alreadyOverLimit (spent : ℚ)
  | projectedToExceed (overBudgetAmount : ℚ)
  | cautionPace (spent : ℚ) (daysUntilExceeded : Option ℤ)
  | strongControl (spent : ℚ)
  | onTrack (spent : ℚ)
  | noSpendingYet (amount : ℚ)
  | overallSlowDown
  | overallSaving
  | overallBalanced
  | tipSavingsGoals
  | tipFiftyThirtyTwenty
deriving DecidableEq, Repr

/-- The `paceData` object destructured by `getPaceRecommendation`.  The
`budget` field holds whatever the caller stored in `paceData.budget`; the
classifier reads `parseFloat(budget.amount) || 0` from it, so the field is
embedded as the parse result: `some q` when `.amount` parses to the number
`q`, `none` when `.amount` is absent or non-numeric (parseFloat yields NaN,
which `|| 0` coerces to 0).  In particular the aggregator stores the plain
number `budget.amount` there, whose `.amount` property is undefined, so
aggregator-made calls carry `none`. -/
structure PaceData where
  spent : ℚ
  pacePercentage : PaceValue
  projectedSpending : ℚ
  remaining : ℚ
  dailyBudget : ℚ
  budget : Option ℚ
  dailyRate : ℚ
deriving DecidableEq, Repr

/-- Result record of `getPaceRecommendation`: `{ message, type }`. -/
structure PaceRecommendation where
  message : RecMessage
  type : Severity
deriving DecidableEq, Repr

/-- Embedding of `BudgetRLService.getPaceRecommendation(category, paceData)`:
threshold branches on `pacePercentage` in source order (`> 100` warning with
the `remaining <= 0` sub-branch, `>= 90` caution, `<= 60` positive, else
info).  The `category` argument flows only into message strings. -/
def getPaceRecommendation (category : String) (pd : PaceData) :
    PaceRecommendation :=
  let budgetAmount : ℚ := pd.budget.getD 0
  if pd.pacePercentage.gtQ 100 then
    if pd.remaining ≤ 0 then
      { message := .alreadyOverLimit pd.spent, type := .warning }
    else
      { message := .projectedToExceed (pd.projectedSpending - budgetAmount)
        type := .warning }
  else if pd.pacePercentage.geQ 90 then
    { message := .cautionPace pd.spent
        (if 0 < pd.dailyRate then some (Int.ceil (pd.remaining / pd.dailyRate))
         else none)
      type := .caution }
  else if pd.pacePercentage.leQ 60 then
    { message := .strongControl pd.spent, type := .positive }
  else
    { message := .onTrack pd.spent, type := .info }

/-- A document of the `Budget` Mongoose model: `user` (ObjectId, embedded as
ℕ), `category`, `amount`, `month`, `year`. -/
structure BudgetDoc where
  user : ℕ
  category : String
  amount : ℚ
  month : ℤ
  year : ℤ
deriving DecidableEq, Repr

/-- A `Transaction` document as consumed by the service: its `type`,
`category`, `amount`, and the `getMonth() + 1` / `getFullYear()` projections
of its `date`. -/
structure Txn where
  type : String
  category : String
  amount : ℚ
  dateMonth : ℤ
  dateYear : ℤ
deriving DecidableEq, Repr

/-- An element of the list built by `generateRecommendations`.  The pushed
objects also carry a `date: new Date()` timestamp (absent on the overall and
generic-tip entries); that wall-clock field is presentation and not
modelled.  `pacePercentage` is `none` on the entries that omit it (the
overall advisory and the generic tips). -/
structure Recommendation where
  category : String
  message : RecMessage
  type : Severity
  pacePercentage : Option PaceValue
deriving DecidableEq, Repr

/-- The `spent` accumulator of the per-budget loop: the sum of the amounts
of expense transactions matching the budget's category, month and year. -/
def spentFor (transactions : List Txn) (b : BudgetDoc) : ℚ :=
  ((transactions.filter fun t =>
      t.type == "expense" && t.category == b.category &&
      t.dateMonth == b.month && t.dateYear == b.year).map Txn.amount).sum

/-- One iteration of the per-budget loop of `generateRecommendations`,
parameterised by the pace calculator and the classifier it invokes (`none`
models the `continue` on budgets outside the current month/year).  The
source stores `paceData.budget = budget.amount` — a plain number whose
`.amount` property is undefined inside the classifier — so the `budget`
field passed on is `none` (see `PaceData.budget`). -/
def processBudgetWith (pace : ℚ → ℚ → ℤ → ℤ → PaceMetrics)
    (classify : String → PaceData → PaceRecommendation)
    (transactions : List Txn) (currentMonth currentYear currentDay daysInMonth : ℤ)
    (budget : BudgetDoc) : Option Recommendation :=
  if budget.month ≠ currentMonth ∨ budget.year ≠ currentYear then none
  else
    let spent := spentFor transactions budget
    if spent = 0 then
      some { category := budget.category
             message := .noSpendingYet budget.amount
             type := .info
             pacePercentage := some (.fin 0) }
    else
      let paceData := pace budget.amount spent currentDay daysInMonth
      let r := classify budget.category
        { spent := paceData.spent
          pacePercentage := paceData.pacePercentage
          projectedSpending := paceData.projectedSpending
          remaining := paceData.remaining
          dailyBudget := paceData.dailyBudget
          budget := none
          dailyRate := paceData.dailyRate }
      some { category := budget.category
             message := r.message
             type := r.type
             pacePercentage := some paceData.pacePercentage }

/-- The per-budget loop body with the actual pace calculator and classifier
of the source plugged in. -/
def processBudget (transactions : List Txn)
    (currentMonth currentYear currentDay daysInMonth : ℤ)
    (budget : BudgetDoc) : Option Recommendation :=
  processBudgetWith calculateBudgetPace getPaceRecommendation transactions
    currentMonth currentYear currentDay daysInMonth budget

/-- The filter `b.month === currentMonth && b.year === currentYear` used by
the overall-advisory step. -/
def isCurrentPeriod (currentMonth currentYear : ℤ) (b : BudgetDoc) : Bool :=
  b.month == currentMonth && b.year == currentYear

/-- The overall-advisory step of `generateRecommendations`: when more than
one current-period budget exists it appends exactly one recommendation with
category `"overall"`, typed by `overallPace` — the guarded expression
`totalBudget > 0 ? totalSpent / (totalBudget / daysInMonth * currentDay) * 100 : 0`.
The source obtains `currentDay` from `today.getDate()` (1..31) and
`daysInMonth` from a `Date` computation (28..31), so both are positive in
every actual call; the rational embedding agrees with JavaScript arithmetic
on that domain. -/
def overallRecs (budgets : List BudgetDoc) (transactions : List Txn)
    (currentMonth currentYear currentDay daysInMonth : ℤ) :
    List Recommendation :=
  if 1 < (budgets.filter (isCurrentPeriod currentMonth currentYear)).length then
    let totalBudget : ℚ :=
      ((budgets.filter (isCurrentPeriod currentMonth currentYear)).map
        BudgetDoc.amount).sum
    let totalSpent : ℚ :=
      ((transactions.filter fun t =>
          t.type == "expense" && t.dateMonth == currentMonth &&
          t.dateYear == currentYear).map Txn.amount).sum
    let overallPace : ℚ :=
      if 0 < totalBudget then
        totalSpent / (totalBudget / (daysInMonth : ℚ) * (currentDay : ℚ)) * 100
      else 0
    if 110 < overallPace then
      [{ category := "overall", message := .overallSlowDown,
         type := .warning, pacePercentage := none }]
    else if overallPace < 90 then
      [{ category := "overall", message := .overallSaving,
         type := .positive, pacePercentage := none }]
    else
      [{ category := "overall", message := .overallBalanced,
         type := .positive, pacePercentage := none }]
  else []

/-- The overall pace exactly as the claim words it:
`overallPace = totalSpent / (totalBudget / daysInMonth * currentDay) * 100`,
where totalBudget sums the current-period budgets and totalSpent the
current-period expense transactions. -/
def overallPaceFormula (budgets : List BudgetDoc) (transactions : List Txn)
    (currentMonth currentYear currentDay daysInMonth : ℤ) : ℚ :=
  ((transactions.filter fun t =>
      t.type == "expense" && t.dateMonth == currentMonth &&
      t.dateYear == currentYear).map Txn.amount).sum
    / (((budgets.filter (isCurrentPeriod currentMonth currentYear)).map
          BudgetDoc.amount).sum / (daysInMonth : ℚ) * (currentDay : ℚ))
    * 100

/-- The two fixed generic tips appended when fewer than 3 recommendations
were produced. -/
def genericTips : List Recommendation :=
  [{ category := "general", message := .tipSavingsGoals,
     type := .general, pacePercentage := none },
   { category := "general", message := .tipFiftyThirtyTwenty,
     type := .general, pacePercentage := none }]

/-- The recommendation list computed by
`BudgetRLService.generateRecommendations(userId, budgets, transactions)`:
the per-budget loop, then the conditional overall advisory, then the
conditional generic tips.  The model-history bookkeeping the method also
performs (loading the `BudgetRL` document and pruning entries younger than
30 days) does not influence this list and is modelled separately in
`generateRecommendationsRun`. -/
def generateRecommendationsList (budgets : List BudgetDoc)
    (transactions : List Txn)
    (currentMonth currentYear currentDay daysInMonth : ℤ) :
    List Recommendation :=
  let recs :=
    budgets.filterMap
      (processBudget transactions currentMonth currentYear currentDay daysInMonth)
    ++ overallRecs budgets transactions currentMonth currentYear currentDay daysInMonth
  if recs.length < 3 then recs ++ genericTips else recs

/-- The effectful tail of `generateRecommendations`.  The method ends with
`await model.save(); return recommendations;` — the save is awaited with no
surrounding try/catch, so a rejected save propagates out of the method
before the return statement runs.  `saveResult` is the outcome of
`model.save()`. -/
def generateRecommendationsRun (saveResult : Except String Unit)
    (budgets : List BudgetDoc) (transactions : List Txn)
    (currentMonth currentYear currentDay daysInMonth : ℤ) :
    Except String (List Recommendation) := do
  let recs := generateRecommendationsList budgets transactions currentMonth
    currentYear currentDay daysInMonth
  let _ ← saveResult
  pure recs

/-- Embedding of `BudgetRLService.updateRecommendationsRealTime`, the
caller that wraps `generateRecommendations` in try/catch: it returns `true`
on success and catches any error (logging it) and returns `false`. -/
def updateRecommendationsRealTime (saveResult : Except String Unit)
    (budgets : List BudgetDoc) (transactions : List Txn)
    (currentMonth currentYear currentDay daysInMonth : ℤ) : Bool :=
  match generateRecommendationsRun saveResult budgets transactions
      currentMonth currentYear currentDay daysInMonth with
  | .ok _ => true
  | .error _ => false

/-- The compound key of the unique index declared in `models/Budget.js`:
`BudgetSchema.index({ user: 1, category: 1, month: 1, year: 1 }, { unique: true })`. -/
def budgetKey (b : BudgetDoc) : ℕ × String × ℤ × ℤ :=
  (b.user, b.category, b.month, b.year)

/-- The invariant enforced by the unique compound index: no two stored
budgets share a (user, category, month, year) key. -/
def uniqueBudgetKeys (store : List BudgetDoc) : Prop :=
  store.Pairwise fun a b => budgetKey a ≠ budgetKey b

/-- The `Budget.findOne({ user, category, month, year })` query predicate of
the POST /budgets handler. -/
def matchesQuery (user : ℕ) (category : String) (month year : ℤ)
    (b : BudgetDoc) : Bool :=
  b.user == user && b.category == category && b.month == month && b.year == year

/-- Mongoose `existingBudget.amount = parseFloat(amount); await
existingBudget.save()`: the found document (the first match) has its amount
replaced in place; every other document is untouched. -/
def updateFirstAmount (p : BudgetDoc → Bool) (amount : ℚ) :
    List BudgetDoc → List BudgetDoc
  | [] => []
  | b :: rest =>
    if p b then { b with amount := amount } :: rest
    else b :: updateFirstAmount p amount rest

/-- Embedding of the POST /budgets handler (`routes/budgets.js`): validate
(`!category || !amount` flashes an error and performs no write — an absent
or falsy raw amount is embedded as `none`), look up an existing budget for
(user, category, month, year), update its amount in place when found, and
create a new document otherwise. -/
def postBudget (store : List BudgetDoc) (user : ℕ) (category : String)
    (amount : Option ℚ) (month year : ℤ) : List BudgetDoc :=
  match amount with
  | none => store
  | some amt =>
    if category = "" then store
    else if store.any (matchesQuery user category month year) then
      updateFirstAmount (matchesQuery user category month year) amt store
    else
      store ++ [{ user := user, category := category, amount := amt,
                  month := month, year := year }]

/-- Input element of `generateAggregateAdvisory`: the fields of a
recommendation object that the helper reads (`category`, `type`, and the
optional `amount`, `spent`, `pacePercentage` it defaults with `|| 0`). -/
structure AdvRec where
  category : String
  type : Severity
  amount : Option ℚ
  spent : Option ℚ
  pacePercentage : Option ℚ
deriving DecidableEq, Repr

/-- The severity computed by
`BudgetRLService.generateAggregateAdvisory(recommendations)` (earlier
service revision, the only one containing it).  A missing (`null` /
`undefined`) argument is embedded as `none`.  The helper groups the input
by `type` into overBudget / nearLimit / underBudget / onTrack buckets and
picks the advisory type by the source's priority chain; the message string
it also assembles is presentation (currency-formatted totals over the same
buckets) and is not modelled. -/
def generateAggregateAdvisoryType (recommendations : Option (List AdvRec)) :
    Severity :=
  match recommendations with
  | none => .info
  | some recs =>
    if recs.length = 0 then .info
    else
      let overBudget := recs.filter fun r => decide (r.type = Severity.warning)
      let nearLimit := recs.filter fun r => decide (r.type = Severity.caution)
      let underBudget := recs.filter fun r => decide (r.type = Severity.positive)
      let onTrack := recs.filter fun r => decide (r.type = Severity.info)
      if 0 < overBudget.length then .warning
      else if 0 < nearLimit.length then .caution
      else if 0 < underBudget.length ∧ onTrack.length = 0 then .positive
      else .info

/-- The aggregate-advisory severity as the claim words it: `warning` when
some input has type warning, else `caution` when some input has type
caution, else `positive` when some input has type positive and none has
type info, else `info` (also for an empty or missing list). -/
def aggregateAdvisorySeveritySpec (recommendations : Option (List AdvRec)) :
    Severity :=
  match recommendations with
  | none => .info
  | some recs =>
    if ∃ r ∈ recs, r.type = Severity.warning then .warning
    else if ∃ r ∈ recs, r.type = Severity.caution then .caution
    else if (∃ r ∈ recs, r.type = Severity.positive) ∧
        ¬ ∃ r ∈ recs, r.type = Severity.info then .positive
    else .info

/-! Theorems -/

/-- C1: for every budgetAmount ≥ 0, spent ≥ 0, daysInMonth > 0 and every
integer currentDay (including values ≤ 0), `calculateBudgetPace` returns
idealSpentByNow = budgetAmount / daysInMonth * max(1, currentDay);
pacePercentage = spent / idealSpentByNow * 100 when idealSpentByNow > 0,
else +∞ when spent > 0, else 0; dailyRate = spent / max(1, currentDay);
projectedSpending = dailyRate * daysInMonth; remaining = budgetAmount -
spent; and dailyBudget = remaining / (daysInMonth - max(1, currentDay))
when that day count is positive, else 0. -/
theorem calculateBudgetPace_fields (budgetAmount spent : ℚ)
    (currentDay daysInMonth : ℤ) (hb : 0 ≤ budgetAmount) (hs : 0 ≤ spent)
    (hd : 0 < daysInMonth) :
    (calculateBudgetPace budgetAmount spent currentDay daysInMonth).idealSpentByNow
        = budgetAmount / (daysInMonth : ℚ) * ((max 1 currentDay : ℤ) : ℚ) ∧
    (0 < budgetAmount / (daysInMonth : ℚ) * ((max 1 currentDay : ℤ) : ℚ) →
      (calculateBudgetPace budgetAmount spent currentDay daysInMonth).pacePercentage
        = .fin (spent / (budgetAmount / (daysInMonth : ℚ) * ((max 1 currentDay : ℤ) : ℚ)) * 100)) ∧
    (¬ 0 < budgetAmount / (daysInMonth : ℚ) * ((max 1 currentDay : ℤ) : ℚ) →
      0 < spent →
      (calculateBudgetPace budgetAmount spent currentDay daysInMonth).pacePercentage
        = .posInf) ∧
    (¬ 0 < budgetAmount / (daysInMonth : ℚ) * ((max 1 currentDay : ℤ) : ℚ) →
      spent = 0 →
      (calculateBudgetPace budgetAmount spent currentDay daysInMonth).pacePercentage
        = .fin 0) ∧
    (calculateBudgetPace budgetAmount spent currentDay daysInMonth).dailyRate
        = spent / ((max 1 currentDay : ℤ) : ℚ) ∧
    (calculateBudgetPace budgetAmount spent currentDay daysInMonth).projectedSpending
        = spent / ((max 1 currentDay : ℤ) : ℚ) * (daysInMonth : ℚ) ∧
    (calculateBudgetPace budgetAmount spent currentDay daysInMonth).remaining
        = budgetAmount - spent ∧
    (0 < daysInMonth - max 1 currentDay →
      (calculateBudgetPace budgetAmount spent currentDay daysInMonth).dailyBudget
        = (budgetAmount - spent) / ((daysInMonth - max 1 currentDay : ℤ) : ℚ)) ∧
    (¬ 0 < daysInMonth - max 1 currentDay →
      (calculateBudgetPace budgetAmount spent currentDay daysInMonth).dailyBudget
        = 0) := by
  unfold calculateBudgetPace
  dsimp only
  refine ⟨rfl, ?_, ?_, ?_, rfl, rfl, rfl, ?_, ?_⟩
  · intro h; rw [if_pos h]
  · intro h h1; rw [if_neg h, if_pos h1]
  · intro h h0; rw [if_neg h, if_neg (by rw [h0]; exact lt_irrefl 0)]
  · intro h; rw [if_pos h]
  · intro h; rw [if_neg h]

/-- Witness for C1 at the spec scenario (amount 3000, spent 1800, day 15 of
30): ideal spend 1500 and pace 120%. -/
theorem calculateBudgetPace_fields_witness :
    (calculateBudgetPace 3000 1800 15 30).idealSpentByNow = 1500 ∧
    (calculateBudgetPace 3000 1800 15 30).pacePercentage = PaceValue.fin 120 := by
  have h := calculateBudgetPace_fields 3000 1800 15 30 (by norm_num)
    (by norm_num) (by norm_num)
  have hmax : (max 1 (15 : ℤ)) = 15 := by decide
  constructor
  · rw [h.1, hmax]; norm_num
  · rw [h.2.1 (by rw [hmax]; norm_num), hmax]
    norm_num

/-- C7: with budgetAmount ≥ 0, daysInMonth > 0 and currentDay fixed, the
pacePercentage returned by `calculateBudgetPace` is monotone non-decreasing
in spent (with respect to the JavaScript order in which every finite value
is below +∞). -/
theorem calculateBudgetPace_pace_monotone (budgetAmount : ℚ)
    (currentDay daysInMonth : ℤ) (spent1 spent2 : ℚ) (hb : 0 ≤ budgetAmount)
    (hd : 0 < daysInMonth) (h0 : 0 ≤ spent1) (h12 : spent1 ≤ spent2) :
    PaceValue.le
      (calculateBudgetPace budgetAmount spent1 currentDay daysInMonth).pacePercentage
      (calculateBudgetPace budgetAmount spent2 currentDay daysInMonth).pacePercentage
      = true := by
  unfold calculateBudgetPace
  dsimp only
  by_cases hI : 0 < budgetAmount / (daysInMonth : ℚ) * ((max 1 currentDay : ℤ) : ℚ)
  · rw [if_pos hI, if_pos hI]
    simp only [PaceValue.le, decide_eq_true_eq]
    gcongr
  · rw [if_neg hI, if_neg hI]
    by_cases h1 : 0 < spent1
    · rw [if_pos h1, if_pos (lt_of_lt_of_le h1 h12)]
      rfl
    · rw [if_neg h1]
      by_cases h2 : 0 < spent2
      · rw [if_pos h2]; rfl
      · rw [if_neg h2]
        simp [PaceValue.le]

/-- Witness for C7: at budget 3000, day 15 of 30, pace at spent 100 is
below pace at spent 200. -/
theorem calculateBudgetPace_pace_monotone_witness :
    PaceValue.le (calculateBudgetPace 3000 100 15 30).pacePercentage
      (calculateBudgetPace 3000 200 15 30).pacePercentage = true :=
  calculateBudgetPace_pace_monotone 3000 15 30 100 200 (by norm_num)
    (by norm_num) (by norm_num) (by norm_num)

/-- C8: for every daysInMonth > 0, every integer currentDay (including
values ≤ 0) and every spent ≥ 0, the checked pace computation — in which a
division by zero aborts — succeeds and agrees with `calculateBudgetPace`:
every division of the source is guarded or has its divisor clamped
positive, and every branch returns a full PaceMetrics record. -/
theorem calculateBudgetPaceChecked_total (budgetAmount spent : ℚ)
    (currentDay daysInMonth : ℤ) (hd : 0 < daysInMonth) (hs : 0 ≤ spent) :
    calculateBudgetPaceChecked budgetAmount spent currentDay daysInMonth
      = some (calculateBudgetPace budgetAmount spent currentDay daysInMonth) := by
  have hdp : (0 : ℤ) < max 1 currentDay :=
    lt_of_lt_of_le zero_lt_one (le_max_left _ _)
  have hdpQ : ((max 1 currentDay : ℤ) : ℚ) ≠ 0 :=
    Int.cast_ne_zero.mpr (ne_of_gt hdp)
  have hdQ : ((daysInMonth : ℤ) : ℚ) ≠ 0 := Int.cast_ne_zero.mpr (ne_of_gt hd)
  unfold calculateBudgetPaceChecked calculateBudgetPace divOpt
  dsimp only
  rw [if_neg hdQ]
  simp only [Option.bind_eq_bind, Option.some_bind, Option.pure_def]
  by_cases hI : 0 < budgetAmount / (daysInMonth : ℚ) * ((max 1 currentDay : ℤ) : ℚ)
  · by_cases hR : 0 < daysInMonth - max 1 currentDay
    · have hRQ : ((daysInMonth - max 1 currentDay : ℤ) : ℚ) ≠ 0 :=
        Int.cast_ne_zero.mpr (ne_of_gt hR)
      rw [if_pos hI, if_pos hI, if_neg (ne_of_gt hI), if_neg hdpQ]
      simp only [Option.some_bind]
      rw [if_pos hR, if_pos hR, if_neg hRQ]
      rfl
    · rw [if_pos hI, if_pos hI, if_neg (ne_of_gt hI), if_neg hdpQ]
      simp only [Option.some_bind]
      rw [if_neg hR, if_neg hR]
  · by_cases hR : 0 < daysInMonth - max 1 currentDay
    · have hRQ : ((daysInMonth - max 1 currentDay : ℤ) : ℚ) ≠ 0 :=
        Int.cast_ne_zero.mpr (ne_of_gt hR)
      rw [if_neg hI, if_neg hI, if_neg hdpQ]
      simp only [Option.some_bind]
      rw [if_pos hR, if_pos hR, if_neg hRQ]
      rfl
    · rw [if_neg hI, if_neg hI, if_neg hdpQ]
      simp only [Option.some_bind]
      rw [if_neg hR, if_neg hR]

/-- Witness for C8 at a degenerate day value: currentDay = -3 of a 30-day
month still produces a record. -/
theorem calculateBudgetPaceChecked_total_witness :
    calculateBudgetPaceChecked 3000 1800 (-3) 30
      = some (calculateBudgetPace 3000 1800 (-3) 30) :=
  calculateBudgetPaceChecked_total 3000 1800 (-3) 30 (by norm_num) (by norm_num)

/-- C2: `getPaceRecommendation` evaluates its thresholds on pacePercentage
in strict first-match-wins order: above 100 gives severity warning (with the
already-over-the-limit message when remaining ≤ 0 and otherwise the
projected-to-exceed message carrying projectedSpending - budgetAmount);
between 90 and 100 inclusive gives caution; at or below the positive
threshold (60 in this revision) gives positive; otherwise info.  In
particular a pacePercentage of exactly 100 is classified caution, never
warning. -/
theorem getPaceRecommendation_thresholds (category : String) (pd : PaceData) :
    (pd.pacePercentage.gtQ 100 = true →
      (getPaceRecommendation category pd).type = Severity.warning ∧
      (pd.remaining ≤ 0 →
        (getPaceRecommendation category pd).message
          = RecMessage.alreadyOverLimit pd.spent) ∧
      (¬ pd.remaining ≤ 0 →
        (getPaceRecommendation category pd).message
          = RecMessage.projectedToExceed
              (pd.projectedSpending - pd.budget.getD 0))) ∧
    (pd.pacePercentage.geQ 90 = true → pd.pacePercentage.leQ 100 = true →
      (getPaceRecommendation category pd).type = Severity.caution) ∧
    (pd.pacePercentage.leQ 60 = true →
      (getPaceRecommendation category pd).type = Severity.positive) ∧
    (pd.pacePercentage.gtQ 100 = false → pd.pacePercentage.geQ 90 = false →
      pd.pacePercentage.leQ 60 = false →
      (getPaceRecommendation category pd).type = Severity.info) ∧
    (pd.pacePercentage = PaceValue.fin 100 →
      (getPaceRecommendation category pd).type = Severity.caution) := by
  refine ⟨?_, ?_, ?_, ?_, ?_⟩
  · intro h
    unfold getPaceRecommendation
    rw [if_pos h]
    by_cases hr : pd.remaining ≤ 0
    · rw [if_pos hr]
      exact ⟨rfl, fun _ => rfl, fun hc => absurd hr hc⟩
    · rw [if_neg hr]
      exact ⟨rfl, fun hc => absurd hc hr, fun _ => rfl⟩
  · intro h90 h100
    rcases hp : pd.pacePercentage with q | _
    · rw [hp] at h90 h100
      simp only [PaceValue.geQ, decide_eq_true_eq] at h90
      simp only [PaceValue.leQ, decide_eq_true_eq] at h100
      unfold getPaceRecommendation
      rw [hp]
      simp only [PaceValue.gtQ, PaceValue.geQ, decide_eq_true_eq]
      rw [if_neg (by simpa using not_lt.mpr h100), if_pos (by simpa using h90)]
    · rw [hp] at h100
      simp [PaceValue.leQ] at h100
  · intro h60
    rcases hp : pd.pacePercentage with q | _
    · rw [hp] at h60
      simp only [PaceValue.leQ, decide_eq_true_eq] at h60
      unfold getPaceRecommendation
      rw [hp]
      simp only [PaceValue.gtQ, PaceValue.geQ, PaceValue.leQ, decide_eq_true_eq]
      rw [if_neg (by simpa using not_lt.mpr (le_trans h60 (by norm_num))),
        if_neg (by simpa using not_le.mpr (lt_of_le_of_lt h60 (by norm_num))),
        if_pos (by simpa using h60)]
    · rw [hp] at h60
      simp [PaceValue.leQ] at h60
  · intro hgt hge hle
    unfold getPaceRecommendation
    rw [hgt, hge, hle]
    simp
  · intro hp100
    unfold getPaceRecommendation
    rw [hp100]
    simp only [PaceValue.gtQ, PaceValue.geQ, decide_eq_true_eq]
    rw [if_neg (by norm_num), if_pos (by norm_num)]

/-- Witness for C2: a pace of exactly 100% is classified caution. -/
theorem getPaceRecommendation_thresholds_witness :
    (getPaceRecommendation "food"
      { spent := 1000, pacePercentage := .fin 100, projectedSpending := 2000,
        remaining := 500, dailyBudget := 0, budget := some 3000,
        dailyRate := 66 }).type = Severity.caution :=
  (getPaceRecommendation_thresholds "food"
    { spent := 1000, pacePercentage := .fin 100, projectedSpending := 2000,
      remaining := 500, dailyBudget := 0, budget := some 3000,
      dailyRate := 66 }).2.2.2.2 rfl

/-- C10: the severity of the aggregate advisory follows the strict priority
warning over caution over positive over info: warning when some input
recommendation has type warning, else caution when some has type caution,
else positive when some has type positive and none has type info, else info
(also info for a missing or empty input list). -/
theorem generateAggregateAdvisory_severity
    (recommendations : Option (List AdvRec)) :
    generateAggregateAdvisoryType recommendations
      = aggregateAdvisorySeveritySpec recommendations := by
  cases recommendations with
  | none => rfl
  | some recs =>
    have hpos : ∀ s : Severity,
        (0 < (recs.filter fun r => decide (r.type = s)).length)
          ↔ ∃ r ∈ recs, r.type = s := by
      intro s
      rw [List.length_pos_iff_exists_mem]
      constructor
      · rintro ⟨a, ha⟩
        rw [List.mem_filter] at ha
        exact ⟨a, ha.1, of_decide_eq_true ha.2⟩
      · rintro ⟨a, ha, hs⟩
        exact ⟨a, List.mem_filter.mpr ⟨ha, decide_eq_true hs⟩⟩
    have hzero :
        ((recs.filter fun r => decide (r.type = Severity.info)).length = 0)
          ↔ ¬ ∃ r ∈ recs, r.type = Severity.info := by
      have hn : ∀ n : ℕ, n = 0 ↔ ¬ 0 < n := fun n => by omega
      rw [hn, hpos]
    unfold generateAggregateAdvisoryType aggregateAdvisorySeveritySpec
    dsimp only
    by_cases hlen : recs.length = 0
    · have hnil : recs = [] := List.length_eq_zero.mp hlen
      subst hnil
      simp
    · rw [if_neg hlen]
      by_cases h1 : ∃ r ∈ recs, r.type = Severity.warning
      · rw [if_pos ((hpos _).mpr h1), if_pos h1]
      · rw [if_neg (fun hc => h1 ((hpos _).mp hc)), if_neg h1]
        by_cases h2 : ∃ r ∈ recs, r.type = Severity.caution
        · rw [if_pos ((hpos _).mpr h2), if_pos h2]
        · rw [if_neg (fun hc => h2 ((hpos _).mp hc)), if_neg h2]
          by_cases h3 : (∃ r ∈ recs, r.type = Severity.positive) ∧
              ¬ ∃ r ∈ recs, r.type = Severity.info
          · rw [if_pos ⟨(hpos _).mpr h3.1, hzero.mpr h3.2⟩, if_pos h3]
          · rw [if_neg (fun hc => h3 ⟨(hpos _).mp hc.1, hzero.mp hc.2⟩),
              if_neg h3]

/-- C3 counterexample: when the history save fails, `generateRecommendations`
does not return the computed list — the rejection propagates.  Concretely a
failing save on an empty input yields the error outcome, not an ok list. -/
theorem generateRecommendations_saveFailure_counterexample :
    (generateRecommendationsRun (Except.error "save failed") [] [] 1 2024 15 30).isOk
        = false ∧
    generateRecommendationsRun (Except.error "save failed") [] [] 1 2024 15 30
        = Except.error "save failed" :=
  ⟨rfl, rfl⟩

/-- C3 amended: `generateRecommendations` awaits the history save with no
try/catch of its own, so a save failure propagates out of the method and the
computed list is not returned; only when the save succeeds is the computed
list returned, and it is a caller (`updateRecommendationsRealTime`) that
catches and logs the failure, reporting `false`. -/
theorem generateRecommendations_savePropagation (e : String)
    (budgets : List BudgetDoc) (transactions : List Txn)
    (currentMonth currentYear currentDay daysInMonth : ℤ) :
    generateRecommendationsRun (Except.error e) budgets transactions
        currentMonth currentYear currentDay daysInMonth = Except.error e ∧
    generateRecommendationsRun (Except.ok ()) budgets transactions
        currentMonth currentYear currentDay daysInMonth
      = Except.ok (generateRecommendationsList budgets transactions
          currentMonth currentYear currentDay daysInMonth) ∧
    updateRecommendationsRealTime (Except.error e) budgets transactions
        currentMonth currentYear currentDay daysInMonth = false :=
  ⟨rfl, rfl, rfl⟩

/-- C5: for a current-period budget whose matching expense sum is 0, the
aggregator emits the info-severity no-spending-yet recommendation with
pacePercentage 0, and does so without invoking the pace calculator or the
classifier (the per-budget step yields this output for every choice of the
two plugged-in functions). -/
theorem generateRecommendations_noSpending (budgets : List BudgetDoc)
    (transactions : List Txn)
    (currentMonth currentYear currentDay daysInMonth : ℤ) (b : BudgetDoc)
    (hmem : b ∈ budgets) (hm : b.month = currentMonth)
    (hy : b.year = currentYear) (hs : spentFor transactions b = 0) :
    (∀ (pace : ℚ → ℚ → ℤ → ℤ → PaceMetrics)
        (classify : String → PaceData → PaceRecommendation),
      processBudgetWith pace classify transactions currentMonth currentYear
          currentDay daysInMonth b
        = some { category := b.category, message := .noSpendingYet b.amount,
                 type := .info, pacePercentage := some (.fin 0) }) ∧
    ({ category := b.category, message := RecMessage.noSpendingYet b.amount,
       type := Severity.info,
       pacePercentage := some (PaceValue.fin 0) } : Recommendation)
      ∈ generateRecommendationsList budgets transactions currentMonth
          currentYear currentDay daysInMonth := by
  have hpb : ∀ (pace : ℚ → ℚ → ℤ → ℤ → PaceMetrics)
      (classify : String → PaceData → PaceRecommendation),
      processBudgetWith pace classify transactions currentMonth currentYear
          currentDay daysInMonth b
        = some { category := b.category, message := .noSpendingYet b.amount,
                 type := .info, pacePercentage := some (.fin 0) } := by
    intro pace classify
    unfold processBudgetWith
    rw [if_neg (by simp [hm, hy])]
    dsimp only
    rw [if_pos hs]
  refine ⟨hpb, ?_⟩
  have h1 : processBudget transactions currentMonth currentYear currentDay
      daysInMonth b
      = some { category := b.category, message := .noSpendingYet b.amount,
               type := .info, pacePercentage := some (.fin 0) } :=
    hpb calculateBudgetPace getPaceRecommendation
  have h2 := List.mem_filterMap.mpr ⟨b, hmem, h1⟩
  have h3 := List.mem_append_left
    (overallRecs budgets transactions currentMonth currentYear currentDay
      daysInMonth) h2
  unfold generateRecommendationsList
  dsimp only
  by_cases hlen :
      (budgets.filterMap (processBudget transactions currentMonth currentYear
          currentDay daysInMonth)
        ++ overallRecs budgets transactions currentMonth currentYear currentDay
            daysInMonth).length < 3
  · rw [if_pos hlen]
    exact List.mem_append_left _ h3
  · rw [if_neg hlen]
    exact h3

/-- Witness for C5 at the spec scenario (budget 3000, day 10 of 30, no
transactions): the no-spending info recommendation is in the output. -/
theorem generateRecommendations_noSpending_witness :
    ({ category := "food", message := RecMessage.noSpendingYet 3000,
       type := Severity.info,
       pacePercentage := some (PaceValue.fin 0) } : Recommendation)
      ∈ generateRecommendationsList
          [{ user := 0, category := "food", amount := 3000, month := 1,
             year := 2024 }] [] 1 2024 10 30 :=
  (generateRecommendations_noSpending
    [{ user := 0, category := "food", amount := 3000, month := 1,
       year := 2024 }] [] 1 2024 10 30
    { user := 0, category := "food", amount := 3000, month := 1, year := 2024 }
    (by simp) rfl rfl rfl).2

/-- C6: when the per-budget and overall steps produced fewer than 3
recommendations, exactly the two fixed generic tips (severity general) are
appended, making one produced recommendation into a returned list of length
3; with 3 or more produced, nothing is appended. -/
theorem generateRecommendations_genericTips (budgets : List BudgetDoc)
    (transactions : List Txn)
    (currentMonth currentYear currentDay daysInMonth : ℤ)
    (produced : List Recommendation)
    (hp : produced
      = budgets.filterMap (processBudget transactions currentMonth currentYear
          currentDay daysInMonth)
        ++ overallRecs budgets transactions currentMonth currentYear currentDay
            daysInMonth) :
    (produced.length < 3 →
      generateRecommendationsList budgets transactions currentMonth currentYear
          currentDay daysInMonth = produced ++ genericTips ∧
      (generateRecommendationsList budgets transactions currentMonth
          currentYear currentDay daysInMonth).length = produced.length + 2 ∧
      genericTips.length = 2 ∧
      ∀ r ∈ genericTips, r.type = Severity.general) ∧
    (3 ≤ produced.length →
      generateRecommendationsList budgets transactions currentMonth currentYear
          currentDay daysInMonth = produced) := by
  subst hp
  constructor
  · intro h3
    unfold generateRecommendationsList
    dsimp only
    rw [if_pos h3]
    refine ⟨rfl, ?_, rfl, by decide⟩
    rw [List.length_append]
    rfl
  · intro h3
    unfold generateRecommendationsList
    dsimp only
    rw [if_neg (by omega)]

/-- Witness for C6: one produced recommendation (a single overspent budget)
yields a returned list of length 3. -/
theorem generateRecommendations_genericTips_witness :
    (generateRecommendationsList
      [{ user := 0, category := "food", amount := 3000, month := 1,
         year := 2024 }]
      [{ type := "expense", category := "food", amount := 1800, dateMonth := 1,
         dateYear := 2024 }] 1 2024 15 30).length = 3 := by
  have hpb : processBudget
      [{ type := "expense", category := "food", amount := 1800, dateMonth := 1,
         dateYear := 2024 }] 1 2024 15 30
      { user := 0, category := "food", amount := 3000, month := 1,
        year := 2024 }
      = some { category := "food", message := .projectedToExceed 3600,
               type := .warning, pacePercentage := some (.fin 120) } := by
    norm_num [processBudget, processBudgetWith, spentFor, calculateBudgetPace,
      getPaceRecommendation, PaceValue.gtQ, PaceValue.geQ, PaceValue.leQ,
      show (max 1 (15 : ℤ)) = 15 from by decide]
  have hov : overallRecs
      [{ user := 0, category := "food", amount := 3000, month := 1,
         year := 2024 }]
      [{ type := "expense", category := "food", amount := 1800, dateMonth := 1,
         dateYear := 2024 }] 1 2024 15 30 = [] := by
    unfold overallRecs
    rw [if_neg (by decide)]
  have hprod : List.filterMap (processBudget
        [{ type := "expense", category := "food", amount := 1800,
           dateMonth := 1, dateYear := 2024 }] 1 2024 15 30)
        [{ user := 0, category := "food", amount := 3000, month := 1,
           year := 2024 }]
      ++ overallRecs
        [{ user := 0, category := "food", amount := 3000, month := 1,
           year := 2024 }]
        [{ type := "expense", category := "food", amount := 1800,
           dateMonth := 1, dateYear := 2024 }] 1 2024 15 30
      = [{ category := "food", message := .projectedToExceed 3600,
           type := .warning, pacePercentage := some (.fin 120) }] := by
    rw [hov, List.append_nil]
    simp [List.filterMap_cons, hpb]
  have h := (generateRecommendations_genericTips
    [{ user := 0, category := "food", amount := 3000, month := 1,
       year := 2024 }]
    [{ type := "expense", category := "food", amount := 1800, dateMonth := 1,
       dateYear := 2024 }] 1 2024 15 30 _ rfl).1 (by rw [hprod]; norm_num)
  rw [h.2.1, hprod]
  decide

/-- C4: with more than one current-period budget (and a positive current
total budget, as the claim's formula presupposes), the aggregator appends
exactly one recommendation with category "overall", typed warning when the
claim's overallPace formula exceeds 110 and positive otherwise (in
particular positive below 90); with at most one current-period budget, no
overall entry is appended. -/
theorem generateRecommendations_overall (budgets : List BudgetDoc)
    (transactions : List Txn)
    (currentMonth currentYear currentDay daysInMonth : ℤ)
    (hcd : 0 < currentDay) (hdim : 0 < daysInMonth) :
    (1 < (budgets.filter (isCurrentPeriod currentMonth currentYear)).length →
      0 < ((budgets.filter (isCurrentPeriod currentMonth currentYear)).map
            BudgetDoc.amount).sum →
      ∃ r, overallRecs budgets transactions currentMonth currentYear currentDay
            daysInMonth = [r] ∧
        generateRecommendationsList budgets transactions currentMonth
            currentYear currentDay daysInMonth
          = (if (budgets.filterMap (processBudget transactions currentMonth
                  currentYear currentDay daysInMonth) ++ [r]).length < 3
             then budgets.filterMap (processBudget transactions currentMonth
                  currentYear currentDay daysInMonth) ++ [r] ++ genericTips
             else budgets.filterMap (processBudget transactions currentMonth
                  currentYear currentDay daysInMonth) ++ [r]) ∧
        r.category = "overall" ∧
        (110 < overallPaceFormula budgets transactions currentMonth currentYear
            currentDay daysInMonth → r.type = Severity.warning) ∧
        (overallPaceFormula budgets transactions currentMonth currentYear
            currentDay daysInMonth < 90 → r.type = Severity.positive) ∧
        (¬ 110 < overallPaceFormula budgets transactions currentMonth
            currentYear currentDay daysInMonth → r.type = Severity.positive)) ∧
    ((budgets.filter (isCurrentPeriod currentMonth currentYear)).length ≤ 1 →
      overallRecs budgets transactions currentMonth currentYear currentDay
          daysInMonth = [] ∧
      generateRecommendationsList budgets transactions currentMonth currentYear
          currentDay daysInMonth
        = (if (budgets.filterMap (processBudget transactions currentMonth
                currentYear currentDay daysInMonth)).length < 3
           then budgets.filterMap (processBudget transactions currentMonth
                currentYear currentDay daysInMonth) ++ genericTips
           else budgets.filterMap (processBudget transactions currentMonth
                currentYear currentDay daysInMonth))) := by
  constructor
  · intro hn htb
    have hov : overallRecs budgets transactions currentMonth currentYear
        currentDay daysInMonth
        = (if 110 < overallPaceFormula budgets transactions currentMonth
              currentYear currentDay daysInMonth then
             [{ category := "overall", message := .overallSlowDown,
                type := .warning, pacePercentage := none }]
           else if overallPaceFormula budgets transactions currentMonth
              currentYear currentDay daysInMonth < 90 then
             [{ category := "overall", message := .overallSaving,
                type := .positive, pacePercentage := none }]
           else
             [{ category := "overall", message := .overallBalanced,
                type := .positive, pacePercentage := none }]) := by
      unfold overallRecs overallPaceFormula
      rw [if_pos hn]
      dsimp only
      rw [if_pos htb]
    by_cases h110 : 110 < overallPaceFormula budgets transactions currentMonth
        currentYear currentDay daysInMonth
    · rw [if_pos h110] at hov
      exact ⟨_, hov,
        by unfold generateRecommendationsList; dsimp only; rw [hov], rfl,
        fun _ => rfl,
        fun h90 => absurd (lt_trans h110 h90) (by norm_num),
        fun hc => absurd h110 hc⟩
    · rw [if_neg h110] at hov
      by_cases h90 : overallPaceFormula budgets transactions currentMonth
          currentYear currentDay daysInMonth < 90
      · rw [if_pos h90] at hov
        exact ⟨_, hov,
          by unfold generateRecommendationsList; dsimp only; rw [hov], rfl,
          fun hc => absurd hc h110, fun _ => rfl, fun _ => rfl⟩
      · rw [if_neg h90] at hov
        exact ⟨_, hov,
          by unfold generateRecommendationsList; dsimp only; rw [hov], rfl,
          fun hc => absurd hc h110, fun hc => absurd hc h90, fun _ => rfl⟩
  · intro hle
    have hov : overallRecs budgets transactions currentMonth currentYear
        currentDay daysInMonth = [] := by
      unfold overallRecs
      rw [if_neg (by omega)]
    refine ⟨hov, ?_⟩
    unfold generateRecommendationsList
    dsimp only
    rw [hov]
    simp only [List.append_nil]

/-- Witness for C4: two current-period budgets with combined spending at
120% of the ideal total produce a single overall recommendation of severity
warning. -/
theorem generateRecommendations_overall_witness :
    ∃ r, overallRecs
        [{ user := 0, category := "food", amount := 1000, month := 1,
           year := 2024 },
         { user := 0, category := "fun", amount := 500, month := 1,
           year := 2024 }]
        [{ type := "expense", category := "food", amount := 900,
           dateMonth := 1, dateYear := 2024 }] 1 2024 15 30 = [r] ∧
      r.category = "overall" ∧ r.type = Severity.warning := by
  have h := (generateRecommendations_overall
    [{ user := 0, category := "food", amount := 1000, month := 1,
       year := 2024 },
     { user := 0, category := "fun", amount := 500, month := 1, year := 2024 }]
    [{ type := "expense", category := "food", amount := 900, dateMonth := 1,
       dateYear := 2024 }] 1 2024 15 30 (by norm_num) (by norm_num)).1
    (by decide) (by norm_num [isCurrentPeriod])
  obtain ⟨r, hov, hgen, hcat, hw, h90, hnot⟩ := h
  exact ⟨r, hov, hcat, hw (by norm_num [overallPaceFormula, isCurrentPeriod])⟩

/-- Updating the amount of the first matching document leaves every stored
key unchanged: any member of the updated list shares its key with a member
of the original list. -/
theorem mem_updateFirstAmount_key {p : BudgetDoc → Bool} {amt : ℚ} :
    ∀ {l : List BudgetDoc} {x : BudgetDoc}, x ∈ updateFirstAmount p amt l →
      ∃ y ∈ l, budgetKey x = budgetKey y := by
  intro l
  induction l with
  | nil => intro x hx; simp [updateFirstAmount] at hx
  | cons b rest ih =>
    intro x hx
    unfold updateFirstAmount at hx
    by_cases hb : p b
    · rw [if_pos hb] at hx
      rcases List.mem_cons.mp hx with h | h
      · exact ⟨b, List.mem_cons_self b rest, by rw [h]; rfl⟩
      · exact ⟨x, List.mem_cons_of_mem b h, rfl⟩
    · rw [if_neg hb] at hx
      rcases List.mem_cons.mp hx with h | h
      · exact ⟨b, List.mem_cons_self b rest, by rw [h]⟩
      · obtain ⟨y, hy, hk⟩ := ih h
        exact ⟨y, List.mem_cons_of_mem b hy, hk⟩

/-- An in-place amount update preserves key distinctness. -/
theorem uniqueBudgetKeys_updateFirstAmount {p : BudgetDoc → Bool} {amt : ℚ} :
    ∀ {l : List BudgetDoc}, uniqueBudgetKeys l →
      uniqueBudgetKeys (updateFirstAmount p amt l) := by
  intro l
  induction l with
  | nil => intro h; exact h
  | cons b rest ih =>
    intro h
    obtain ⟨hb, hrest⟩ := List.pairwise_cons.mp h
    unfold updateFirstAmount
    by_cases hpb : p b
    · rw [if_pos hpb]
      exact List.pairwise_cons.mpr ⟨fun y hy => hb y hy, hrest⟩
    · rw [if_neg hpb]
      refine List.pairwise_cons.mpr ⟨?_, ih hrest⟩
      intro y hy
      obtain ⟨z, hz, hk⟩ := mem_updateFirstAmount_key hy
      rw [hk]
      exact hb z hz

/-- The findOne query of the POST handler matches a document exactly when
the document carries the queried compound key. -/
theorem matchesQuery_true_iff {u : ℕ} {c : String} {m y : ℤ} {b : BudgetDoc} :
    matchesQuery u c m y b = true ↔ budgetKey b = (u, c, m, y) := by
  simp [matchesQuery, budgetKey, Prod.ext_iff, and_assoc]

/-- C9: the POST /budgets upsert preserves the unique-compound-index
invariant of the Budget schema: if at most one document exists per
(user, category, month, year) key before the request, the same holds after
it — the handler updates the found document's amount in place and only
creates a new document when the lookup found none. -/
theorem postBudget_preserves_uniqueKeys (store : List BudgetDoc) (user : ℕ)
    (category : String) (amount : Option ℚ) (month year : ℤ)
    (h : uniqueBudgetKeys store) :
    uniqueBudgetKeys (postBudget store user category amount month year) := by
  cases amount with
  | none => exact h
  | some amt =>
    unfold postBudget
    dsimp only
    by_cases hc : category = ""
    · rw [if_pos hc]; exact h
    · rw [if_neg hc]
      by_cases hany : store.any (matchesQuery user category month year) = true
      · rw [if_pos hany]
        exact uniqueBudgetKeys_updateFirstAmount h
      · rw [if_neg hany]
        unfold uniqueBudgetKeys at h ⊢
        rw [List.pairwise_append]
        refine ⟨h, by simp, ?_⟩
        intro a ha r hr
        rw [List.mem_singleton] at hr
        subst hr
        intro hk
        apply hany
        rw [List.any_eq_true]
        exact ⟨a, ha, matchesQuery_true_iff.mpr hk⟩

/-- Witness for C9: updating the amount of an existing (user, category,
month, year) budget keeps the store duplicate-free. -/
theorem postBudget_preserves_uniqueKeys_witness :
    uniqueBudgetKeys (postBudget
      [{ user := 1, category := "food", amount := 100, month := 1,
         year := 2024 }] 1 "food" (some 200) 1 2024) :=
  postBudget_preserves_uniqueKeys
    [{ user := 1, category := "food", amount := 100, month := 1,
       year := 2024 }] 1 "food" (some 200) 1 2024
    (by simp [uniqueBudgetKeys])

end FinanceTracker
